import Mathlib

/-!
Shallow embedding of the JVMCI lifecycle/diagnostics core
(`src/hotspot/share/jvmci/jvmci.cpp`) and proofs about its
counter registry, shared-library loader, logging and crash-log paths.

`jlong` counters are modelled as `Int` (the claims under study do not
depend on 64-bit wraparound, and every stated property is invariant
under it).  Heap allocation, which can fail, is modelled by a boolean
oracle `alloc : Nat → Bool` giving the outcome of the k-th allocation
call.  Global VM state touched by an operation is passed explicitly.
-/

namespace JVMCI

/-- The copy loop of `resize_counters_array`:
`for (i = 0; i < n; i++) new_counters[i] = old_counters[i]`.
Out-of-bounds reads (which the invariant `old.length = current_size`
rules out) default to 0. -/
def copyCounters (old : List Int) (n : Nat) : List Int :=
  (List.range n).map (fun i => old.getD i 0)

/-- `resize_counters_array(old_counters, current_size, new_size)`:
allocates a `new_size` array (the `allocOk` oracle decides whether
`NEW_C_HEAP_ARRAY_RETURN_NULL` succeeds; `none` models the NULL return).
With no previous array the result is zero-filled; otherwise indices
`< MIN2(current_size, new_size)` are copied and, when growing,
`[current_size, new_size)` is zeroed and the old array is freed. -/
def resize_counters_array (allocOk : Bool) (old_counters : Option (List Int))
    (current_size new_size : Nat) : Option (List Int) :=
  if !allocOk then none
  else
    match old_counters with
    | none => some (List.replicate new_size 0)
    | some old =>
        some (copyCounters old (min current_size new_size) ++
              List.replicate (new_size - current_size) 0)

/-- The per-thread JVMCI state relevant to counters: whether the thread
is a compiler thread and its `_jvmci_counters` block (none = NULL). -/
structure JavaThread where
  isCompilerThread : Bool
  jvmci_counters : Option (List Int)
deriving Repr, DecidableEq

/-- The process-wide counter-registry state: the retired pool
`_jvmci_old_thread_counters`, the live-thread list (a `ThreadsListHandle`
snapshot) and the configured `JVMCICounterSize`. -/
structure CountersState where
  old_thread_counters : Option (List Int)
  threads : List JavaThread
  counterSize : Nat
deriving Repr, DecidableEq

/-- `JVMCI::resize_counters(thread, current_size, new_size)`: resize one
thread's block; on allocation failure returns failure (`none`) and the
thread is unchanged. -/
def resize_counters (allocOk : Bool) (t : JavaThread) (current_size new_size : Nat) :
    Option JavaThread :=
  match resize_counters_array allocOk t.jvmci_counters current_size new_size with
  | none => none
  | some nc => some { t with jvmci_counters := some nc }

/-- The thread loop of `VM_JVMCIResizeCounters::doit`: resizes each live
thread's block in order, consuming allocation outcomes `alloc k`,
`alloc (k+1)`, ...; on the first failure it sets the failed flag and
breaks, leaving that thread and all later ones untouched. -/
def resizeThreadsLoop (alloc : Nat → Bool) (k : Nat) (current_size new_size : Nat) :
    List JavaThread → List JavaThread × Bool
  | [] => ([], false)
  | t :: rest =>
    match resize_counters (alloc k) t current_size new_size with
    | none => (t :: rest, true)
    | some t2 =>
      let r := resizeThreadsLoop alloc (k + 1) current_size new_size rest
      (t2 :: r.1, r.2)

/-- `VM_JVMCIResizeCounters::doit` (run inside the VM operation, i.e.
at a global pause): first resizes the retired pool (allocation 0) —
aborting with `_failed = true` if that allocation fails — then commits
the new pool and resizes each live thread's block (allocations 1, 2, ...),
breaking on the first failure.  `JVMCICounterSize` is updated only when
nothing failed.  Returns the new state and the `_failed` flag. -/
def doit (alloc : Nat → Bool) (s : CountersState) (new_size : Nat) :
    CountersState × Bool :=
  match resize_counters_array (alloc 0) s.old_thread_counters s.counterSize new_size with
  | none => (s, true)
  | some newPool =>
    let r := resizeThreadsLoop alloc 1 s.counterSize new_size s.threads
    ({ old_thread_counters := some newPool, threads := r.1,
       counterSize := if r.2 then s.counterSize else new_size }, r.2)

/-- `JVMCI::resize_all_jvmci_counters(new_size)`: executes the VM
operation and reports `!op.failed()`. -/
def resize_all_jvmci_counters (alloc : Nat → Bool) (s : CountersState) (new_size : Nat) :
    CountersState × Bool :=
  let r := doit alloc s new_size
  (r.1, !r.2)

/-- `jvmci_counters_include(thread)`:
`!JVMCICountersExcludeCompiler || !thread->is_Compiler_thread()`. -/
def jvmci_counters_include (excludeCompiler : Bool) (t : JavaThread) : Bool :=
  !excludeCompiler || !t.isCompilerThread

/-- The elementwise accumulation loop
`for (i = 0; i < n; i++) acc[i] += tc[i]` over the first `n` slots. -/
def addCounters (n : Nat) (acc tc : List Int) : List Int :=
  (List.range n).map (fun i => acc.getD i 0 + tc.getD i 0)

/-- Error value for the `assert(length == JVMCICounterSize, "wrong value")`
guard in `collect_counters`. -/
inductive CollectError where
  | wrongLength (length counterSize : Nat) : CollectError
deriving Repr, DecidableEq

/-- `JVMCI::collect_counters(array, length)`.  Modelled from the spec:
the `assert` macro that guards the length is defined outside this
translation unit; the spec states a wrong-length array "fails in a
fatal, process-terminating way", modelled here as an error result.
On the correct length the output starts from the retired pool and adds,
for every live thread passing `jvmci_counters_include`, its block
elementwise. -/
def collect_counters (excludeCompiler : Bool) (s : CountersState) (length : Nat) :
    Except CollectError (List Int) :=
  if length ≠ s.counterSize then
    .error (.wrongLength length s.counterSize)
  else
    let init := (List.range length).map
      (fun i => (s.old_thread_counters.getD []).getD i 0)
    .ok (s.threads.foldl
      (fun acc t =>
        if jvmci_counters_include excludeCompiler t then
          addCounters length acc (t.jvmci_counters.getD [])
        else acc)
      init)

/-- `JVMCI::accumulate_counters(thread)`: when `JVMCICounterSize > 0` and
the thread passes the inclusion policy, folds its block elementwise into
the retired pool; otherwise the pool is unchanged. -/
def accumulate_counters (excludeCompiler : Bool) (counterSize : Nat)
    (pool : List Int) (t : JavaThread) : List Int :=
  if 0 < counterSize then
    if jvmci_counters_include excludeCompiler t then
      addCounters counterSize pool (t.jvmci_counters.getD [])
    else pool
  else pool

/-- `JVMCI::free_counters(thread)`: when `JVMCICounterSize > 0` frees the
thread's block (modelled by clearing it); a no-op when the size is 0. -/
def free_counters_thread (counterSize : Nat) (t : JavaThread) : JavaThread :=
  if 0 < counterSize then { t with jvmci_counters := none } else t

/-- `JVMCI::free_counters()`: when `JVMCICounterSize > 0` frees the
retired pool; a no-op when the size is 0. -/
def free_counters_global (counterSize : Nat) (pool : Option (List Int)) :
    Option (List Int) :=
  if 0 < counterSize then none else pool

/-- `JVMCI::init_counters()`: allocate and zero the retired pool when
`JVMCICounterSize > 0`, else leave it NULL. -/
def init_counters (counterSize : Nat) : Option (List Int) :=
  if 0 < counterSize then some (List.replicate counterSize 0) else none

/-- Modelled from the spec: the thread-exit caller of
`accumulate_counters` and `free_counters(thread)` lives outside the one
source file here; per the spec, a terminating thread's release "first
folding its values into the RetiredCounterPool" runs the accumulation
and then frees the block. Result: (new retired pool, thread after free). -/
def thread_exit_free (excludeCompiler : Bool) (counterSize : Nat)
    (pool : List Int) (t : JavaThread) : List Int × JavaThread :=
  (accumulate_counters excludeCompiler counterSize pool t,
   free_counters_thread counterSize t)

/-! ## Shared-library loader (`JVMCI::get_shared_library`) -/

/-- The cached library state: `_shared_library_handle` (none = NULL) and
`_shared_library_path` (none = NULL). -/
structure LibState where
  shared_library_handle : Option Nat
  shared_library_path : Option String
deriving Repr, DecidableEq

/-- The three `fatal(...)` diagnostics of the loader slow path, carrying
exactly the data their format strings interpolate. -/
inductive FatalMsg where
  | locateOverrideFailed (jvmciLibPath : String) : FatalMsg
  | locateDefaultFailed : FatalMsg
  | loadFailed (path : String) (osError : String) : FatalMsg
deriving Repr, DecidableEq

/-- The rendered `fatal` message, matching the C format strings. -/
def FatalMsg.render : FatalMsg → String
  | .locateOverrideFailed p =>
      "Unable to create path to JVMCI shared library based on value of JVMCILibPath (" ++ p ++ ")"
  | .locateDefaultFailed => "Unable to create path to JVMCI shared library"
  | .loadFailed p e => "Unable to load JVMCI shared library from " ++ p ++ ": " ++ e

/-- The attempted library path named by a fatal diagnostic, if any. -/
def FatalMsg.namedPath : FatalMsg → Option String
  | .locateOverrideFailed p => some p
  | .locateDefaultFailed => none
  | .loadFailed p _ => some p

/-- The OS error text named by a fatal diagnostic, if any. -/
def FatalMsg.namedOsError : FatalMsg → Option String
  | .loadFailed _ e => some e
  | _ => none

/-- What one `get_shared_library` call returns: the (possibly updated)
cached state, the returned handle, the returned path, and whether
`os::dll_load` was executed during the call. -/
structure LibResult where
  state : LibState
  handle : Option Nat
  path : Option String
  didLoad : Bool
deriving Repr, DecidableEq

/-- `JVMCI::get_shared_library(path, load)`.  Parameters model the
environment: `jvmciLibPath` is the `JVMCILibPath` option, `dllDir` is
`Arguments::get_dll_dir()`, `dll_locate_lib dir` resolves the library
file under `dir` (none = failure), and `dll_load p` loads it (an error
carries the `ebuf` OS error text).  Fast path: a cached handle, or
`load` false, returns the cached handle and path with no load attempt.
Slow path (under `JVMCI_lock`): re-checks the handle, resolves the path
preferring `JVMCILibPath`, loads, and `fatal`s on either failure;
on success caches the handle and a copy of the resolved path. -/
def get_shared_library (jvmciLibPath : Option String) (dllDir : String)
    (dll_locate_lib : String → Option String)
    (dll_load : String → Except String Nat)
    (s : LibState) (load : Bool) : Except FatalMsg LibResult :=
  if s.shared_library_handle.isSome || !load then
    .ok ⟨s, s.shared_library_handle, s.shared_library_path, false⟩
  else
    match s.shared_library_handle with
    | some h => .ok ⟨s, some h, s.shared_library_path, false⟩
    | none =>
      let located : Except FatalMsg String :=
        match jvmciLibPath with
        | some op =>
          match dll_locate_lib op with
          | some p => .ok p
          | none => .error (.locateOverrideFailed op)
        | none =>
          match dll_locate_lib dllDir with
          | some p => .ok p
          | none => .error .locateDefaultFailed
      match located with
      | .error e => .error e
      | .ok p =>
        match dll_load p with
        | .error ebuf => .error (.loadFailed p ebuf)
        | .ok h => .ok ⟨⟨some h, some p⟩, some h, some p, true⟩

/-- Runs a sequence of `get_shared_library` calls (each element of
`calls` is that call's `load` flag), threading the cached state and
counting how many calls executed `os::dll_load`.  A fatal diagnostic
terminates the process, ending the sequence. -/
def runGetLibrary (jvmciLibPath : Option String) (dllDir : String)
    (dll_locate_lib : String → Option String)
    (dll_load : String → Except String Nat) :
    LibState → List Bool → LibState × Nat
  | s, [] => (s, 0)
  | s, b :: rest =>
    match get_shared_library jvmciLibPath dllDir dll_locate_lib dll_load s b with
    | .error _ => (s, 0)
    | .ok r =>
      let rec2 := runGetLibrary jvmciLibPath dllDir dll_locate_lib dll_load r.state rest
      (rec2.1, (if r.didLoad then 1 else 0) + rec2.2)

/-! ## Event/trace logging (`JVMCI::vlog`, `JVMCI::vtrace`) -/

/-- A structured entry recorded by `vlog`: which buffer it went to
(`verbose = false` is `_events`, used exactly for level 1), the logging
thread, and the message. -/
structure LogEntry where
  verbose : Bool
  thread : String
  message : String
deriving Repr, DecidableEq

/-- `JVMCI::vlog(level, format, ap)`: records an entry only when
`LogEvents` is set and `JVMCIEventLogLevel >= level`; the entry goes to
`_events` for level 1 and `_verbose_events` otherwise, tagged with the
current thread — but `Thread::current_or_null_safe()` returning NULL
(an unresolvable thread) records nothing. -/
def vlog (logEvents : Bool) (eventLogLevel : Nat) (level : Nat)
    (thread : Option String) (msg : String) : Option LogEntry :=
  if logEvents && decide (level ≤ eventLogLevel) then
    match thread with
    | some t => some ⟨level ≠ 1, t, msg⟩
    | none => none
  else none

/-- A console trace line printed by `vtrace`: the level, the thread tag
(the thread's name, or the `?` placeholder), and the message. -/
structure TraceLine where
  level : Nat
  threadTag : String
  message : String
deriving Repr, DecidableEq

/-- `JVMCI::vtrace(level, format, ap)`: prints a line only when
`JVMCITraceLevel >= level`, tagged `JVMCITrace-level[name]` when the
current thread resolves and `JVMCITrace-level[?]` when it does not. -/
def vtrace (traceLevel : Nat) (level : Nat) (thread : Option String)
    (msg : String) : Option TraceLine :=
  if decide (level ≤ traceLevel) then
    match thread with
    | some t => some ⟨level, t, msg⟩
    | none => some ⟨level, "?", msg⟩
  else none

/-! ## Crash logger (`JVMCI::fatal_log`) -/

/-- The crash-log election state: `_fatal_log_init_thread` (none = -1),
`_fatal_log_fd` (none = -1) and `_fatal_log_filename`. -/
structure FatalLogState where
  init_thread : Option Int
  fd : Option Int
  filename : Option String
deriving Repr, DecidableEq

/-- The observable outcome of one completed `fatal_log` call: the state
afterwards, the descriptor the buffer was written to, and the failure
reason reported once to the console (the `strerror` text), if any. -/
structure FatalLogOutcome where
  state : FatalLogState
  written_fd : Int
  console_report : Option String
deriving Repr, DecidableEq

/-- `JVMCI::fatal_log(buf, count)`.  `prepare_log_file` models
`VMError::prepare_log_file` (some (fd, filename) on success, none when
it returns -1), `strerrorText` the `os::strerror(errno)` text, `tid`
`os::current_thread_id()`.  The thread winning the compare-and-exchange
on `init_thread` resolves the descriptor in priority order
(`ErrorFileToStdout`, then `ErrorFileToStderr`, then the log file,
falling back to stdout with a console report when file creation fails)
and publishes it; a loser spins until the descriptor is published —
`none` models the spin never ending because no published descriptor
exists in this state.  Every completed call writes to the published
descriptor. -/
def fatal_log (errorFileToStdout errorFileToStderr : Bool)
    (prepare_log_file : Option (Int × String)) (strerrorText : String)
    (tid : Int) (s : FatalLogState) : Option FatalLogOutcome :=
  match s.init_thread with
  | none =>
    if errorFileToStdout then
      some ⟨⟨some tid, some 1, s.filename⟩, 1, none⟩
    else if errorFileToStderr then
      some ⟨⟨some tid, some 2, s.filename⟩, 2, none⟩
    else
      match prepare_log_file with
      | some (fd, name) => some ⟨⟨some tid, some fd, some name⟩, fd, none⟩
      | none => some ⟨⟨some tid, some 1, s.filename⟩, 1, some strerrorText⟩
  | some _ =>
    match s.fd with
    | some fd => some ⟨s, fd, none⟩
    | none => none

/-! ## Box-cache initialization (`JVMCI::ensure_box_caches_initialized`) -/

/-- The fixed six-element list of numeric wrapper cache class symbols. -/
def box_classes : List String :=
  ["java/lang/Boolean", "java/lang/Byte$ByteCache", "java/lang/Short$ShortCache",
   "java/lang/Character$CharacterCache", "java/lang/Integer$IntegerCache",
   "java/lang/Long$LongCache"]

/-- The resolution loop of `ensure_box_caches_initialized`: for each
class symbol in order, `SystemDictionary::resolve_or_fail` (an error is
a pending exception, propagated by `CHECK`), then `initialize` when the
klass `is_not_initialized`.  Returns the outcome and the list of class
symbols attempted before stopping. -/
def initBoxLoop (resolve_or_fail : String → Except String Nat)
    (is_not_initialized : Nat → Bool)
    (klassInit : Nat → Except String Unit) :
    List String → Except String Unit × List String
  | [] => (.ok (), [])
  | c :: rest =>
    match resolve_or_fail c with
    | .error e => (.error e, [c])
    | .ok k =>
      match (if is_not_initialized k then klassInit k else .ok ()) with
      | .error e => (.error e, [c])
      | .ok _ =>
        let r := initBoxLoop resolve_or_fail is_not_initialized klassInit rest
        (r.1, c :: r.2)

/-- `JVMCI::ensure_box_caches_initialized(TRAPS)`: a no-op when
`_box_caches_initialized` is already set; otherwise runs the loop over
all six box classes, and sets the flag only after the whole loop
completed without an exception.  Returns (new flag, outcome, attempted
class symbols). -/
def ensure_box_caches_initialized (resolve_or_fail : String → Except String Nat)
    (is_not_initialized : Nat → Bool)
    (klassInit : Nat → Except String Unit)
    (box_caches_initialized : Bool) :
    Bool × Except String Unit × List String :=
  if box_caches_initialized then (true, .ok (), [])
  else
    match initBoxLoop resolve_or_fail is_not_initialized klassInit box_classes with
    | (.ok _, tr) => (true, .ok (), tr)
    | (.error e, tr) => (false, .error e, tr)

/-! ## Helper lemmas -/

theorem getD_map_range (f : Nat → Int) (n i : Nat) (h : i < n) :
    ((List.range n).map f).getD i 0 = f i := by
  rw [List.getD_eq_getElem _ _ (by simpa using h)]
  simp

theorem getD_replicate_zero (n i : Nat) : (List.replicate n (0 : Int)).getD i 0 = 0 := by
  rcases lt_or_le i n with h | h
  · rw [List.getD_eq_getElem _ _ (by simpa using h)]
    simp
  · rw [List.getD_eq_default _ _ (by simpa using h)]

theorem copyCounters_length (old : List Int) (n : Nat) :
    (copyCounters old n).length = n := by
  simp [copyCounters]

theorem copyCounters_getD (old : List Int) (n i : Nat) (h : i < n) :
    (copyCounters old n).getD i 0 = old.getD i 0 :=
  getD_map_range _ n i h

theorem addCounters_length (n : Nat) (a b : List Int) :
    (addCounters n a b).length = n := by
  simp [addCounters]

theorem addCounters_getD (n : Nat) (a b : List Int) (i : Nat) (h : i < n) :
    (addCounters n a b).getD i 0 = a.getD i 0 + b.getD i 0 :=
  getD_map_range _ n i h

/-- A successful `resize_counters_array` always yields an array of the
requested size. -/
theorem resize_counters_array_length (b : Bool) (oc : Option (List Int))
    (cs ns : Nat) (r : List Int)
    (h : resize_counters_array b oc cs ns = some r) : r.length = ns := by
  cases b with
  | false => simp [resize_counters_array] at h
  | true =>
    cases oc with
    | none =>
      simp only [resize_counters_array, Bool.not_true, Bool.false_eq_true,
        if_false, Option.some.injEq] at h
      rw [← h]
      simp
    | some old =>
      simp only [resize_counters_array, Bool.not_true, Bool.false_eq_true,
        if_false, Option.some.injEq] at h
      rw [← h, List.length_append, copyCounters_length, List.length_replicate]
      omega

/-- When the thread loop of the resize VM operation reports no failure,
every thread in the resulting list carries a block of the new size. -/
theorem resizeThreadsLoop_success (alloc : Nat → Bool) (cs ns : Nat) :
    ∀ (l : List JavaThread) (k : Nat),
      (resizeThreadsLoop alloc k cs ns l).2 = false →
      ∀ t ∈ (resizeThreadsLoop alloc k cs ns l).1,
        ∃ b, t.jvmci_counters = some b ∧ b.length = ns := by
  intro l
  induction l with
  | nil =>
    intro k _ t ht
    simp [resizeThreadsLoop] at ht
  | cons hd tl ih =>
    intro k h t ht
    cases hr : resize_counters (alloc k) hd cs ns with
    | none =>
      simp only [resizeThreadsLoop, hr] at h
      exact absurd h (by decide)
    | some t2 =>
      simp only [resizeThreadsLoop, hr] at h ht
      rcases List.mem_cons.mp ht with h1 | ht
      · subst h1
        unfold resize_counters at hr
        cases hra : resize_counters_array (alloc k) hd.jvmci_counters cs ns with
        | none => rw [hra] at hr; exact absurd hr (by simp)
        | some nc =>
          rw [hra] at hr
          simp only [Option.some.injEq] at hr
          refine ⟨nc, ?_, resize_counters_array_length _ _ _ _ _ hra⟩
          rw [← hr]
      · exact ih (k + 1) h t ht

/-- On a failed resize VM operation, `JVMCICounterSize` is not updated. -/
theorem doit_failed_counterSize (alloc : Nat → Bool) (s : CountersState) (ns : Nat) :
    (doit alloc s ns).2 = true → (doit alloc s ns).1.counterSize = s.counterSize := by
  unfold doit
  split
  · intro _
    rfl
  · intro h
    dsimp only at h ⊢
    rw [if_pos h]

/-- On a resize VM operation that reports no failure, the pool and every
thread block end at the new size, which is committed to
`JVMCICounterSize`. -/
theorem doit_success_spec (alloc : Nat → Bool) (s : CountersState) (ns : Nat) :
    (doit alloc s ns).2 = false →
    (doit alloc s ns).1.counterSize = ns ∧
    (∃ p, (doit alloc s ns).1.old_thread_counters = some p ∧ p.length = ns) ∧
    (∀ t ∈ (doit alloc s ns).1.threads,
        ∃ b, t.jvmci_counters = some b ∧ b.length = ns) := by
  unfold doit
  split
  · intro h
    simp at h
  · next np h0 =>
    intro h
    dsimp only at h ⊢
    refine ⟨by rw [if_neg (by rw [h]; exact Bool.false_ne_true)], ?_, ?_⟩
    · exact ⟨np, rfl, resize_counters_array_length _ _ _ _ _ h0⟩
    · exact resizeThreadsLoop_success alloc s.counterSize ns s.threads 1 h

/-! ## C1: all-or-nothing resize -/

/-- C1 counterexample: with one live thread holding block `[7]`, retired
pool `[5]`, configured size 1 and a resize to 2 where only the first
allocation (the pool's) succeeds, `resize_all_jvmci_counters` reports
failure, yet the retired pool has already been resized to `[5, 0]` — so
"no block changes size or contents" on a failed resize is false. -/
theorem resize_all_not_atomic_cex :
    (resize_all_jvmci_counters (fun k => decide (k = 0))
        ⟨some [5], [⟨false, some [7]⟩], 1⟩ 2).2 = false ∧
    (resize_all_jvmci_counters (fun k => decide (k = 0))
        ⟨some [5], [⟨false, some [7]⟩], 1⟩ 2).1.old_thread_counters = some [5, 0] ∧
    some [5, 0] ≠ (some [5] : Option (List Int)) := by
  decide

/-- C1 (amended): `resize_all_jvmci_counters` reports failure exactly
when some allocation failed; on success every live block and the retired
pool end at the new size and the new size is committed; on failure the
configured counter size is left unchanged (although blocks resized
before the failing allocation, including the retired pool, may already
be at the new size). -/
theorem resize_all_amended_spec (alloc : Nat → Bool) (s : CountersState) (ns : Nat) :
    ((resize_all_jvmci_counters alloc s ns).2 = true →
        (resize_all_jvmci_counters alloc s ns).1.counterSize = ns ∧
        (∃ p, (resize_all_jvmci_counters alloc s ns).1.old_thread_counters = some p ∧
            p.length = ns) ∧
        (∀ t ∈ (resize_all_jvmci_counters alloc s ns).1.threads,
            ∃ b, t.jvmci_counters = some b ∧ b.length = ns)) ∧
    ((resize_all_jvmci_counters alloc s ns).2 = false →
        (resize_all_jvmci_counters alloc s ns).1.counterSize = s.counterSize) := by
  constructor
  · intro h
    have hd : (doit alloc s ns).2 = false := by
      unfold resize_all_jvmci_counters at h
      simpa using h
    have := doit_success_spec alloc s ns hd
    unfold resize_all_jvmci_counters
    exact this
  · intro h
    have hd : (doit alloc s ns).2 = true := by
      unfold resize_all_jvmci_counters at h
      simpa using h
    have := doit_failed_counterSize alloc s ns hd
    unfold resize_all_jvmci_counters
    exact this

/-- Witness for C1 (amended) at a concrete input: growing pool `[1]` and
one thread block `[2]` from size 1 to size 2 with all allocations
succeeding commits size 2. -/
theorem resize_all_amended_spec_witness :
    (resize_all_jvmci_counters (fun _ => true)
        ⟨some [1], [⟨false, some [2]⟩], 1⟩ 2).1.counterSize = 2 := by
  have h := resize_all_amended_spec (fun _ => true)
    ⟨some [1], [⟨false, some [2]⟩], 1⟩ 2
  exact (h.1 (by decide)).1

/-! ## C6: resize preserves, zero-fills, truncates -/

/-- C6: resizing an existing array from `current_size` to `new_size`
yields an array of length `new_size` preserving every index below
`min current_size new_size` and zero-filling `[current_size, new_size)`
(shrinking truncates, since the result has length `new_size`); with no
previous array the result has the configured length and is entirely
zero-filled, for every size. -/
theorem resize_counters_array_spec (old : List Int) (cs ns : Nat) :
    (∃ r, resize_counters_array true (some old) cs ns = some r ∧
        r.length = ns ∧
        (∀ i, i < min cs ns → r.getD i 0 = old.getD i 0) ∧
        (∀ i, cs ≤ i → i < ns → r.getD i 0 = 0)) ∧
    (∃ r0, resize_counters_array true none cs ns = some r0 ∧
        r0.length = ns ∧ ∀ i, i < ns → r0.getD i 0 = 0) := by
  constructor
  · refine ⟨copyCounters old (min cs ns) ++ List.replicate (ns - cs) 0,
      by simp [resize_counters_array], ?_, ?_, ?_⟩
    · rw [List.length_append, copyCounters_length, List.length_replicate]
      omega
    · intro i hi
      rw [List.getD_append _ _ _ _ (by rw [copyCounters_length]; exact hi)]
      exact copyCounters_getD _ _ _ hi
    · intro i hcs hns
      rw [List.getD_append_right _ _ _ _ (by rw [copyCounters_length]; omega)]
      exact getD_replicate_zero _ _
  · exact ⟨List.replicate ns 0, by simp [resize_counters_array], by simp,
      fun i _ => getD_replicate_zero ns i⟩

/-- Witness for C6 at the spec's scenario: `[1,2,3,4]` resized from 4 to
8 keeps index 3 at 4 and zero-fills index 5. -/
theorem resize_counters_array_spec_witness :
    ∃ r, resize_counters_array true (some [1, 2, 3, 4]) 4 8 = some r ∧
      r.getD 3 0 = 4 ∧ r.getD 5 0 = 0 := by
  obtain ⟨⟨r, h1, _, h3, h4⟩, -⟩ := resize_counters_array_spec [1, 2, 3, 4] 4 8
  exact ⟨r, h1, (h3 3 (by decide)).trans (by decide), h4 5 (by decide) (by decide)⟩

/-! ## C2: fold-then-free on thread exit -/

/-- C2 counterexample: with compiler-thread exclusion configured
(`JVMCICountersExcludeCompiler`), a terminating compiler thread's
values are not folded into the retired pool: the exit path leaves the
pool at `[0]` rather than the elementwise fold `[5]`. -/
theorem thread_exit_excluded_not_folded_cex :
    (thread_exit_free true 1 [0] ⟨true, some [5]⟩).1 = [0] ∧
    addCounters 1 [0] [5] = [5] ∧ ([0] : List Int) ≠ [5] := by
  decide

/-- C2 (amended): for a terminating thread admitted by the inclusion
policy, the exit path first folds the thread's counter values
elementwise into the retired pool and then releases the block; a thread
excluded by the policy has its block released without folding; and with
a configured counter count of zero, both the per-thread release and the
global release are no-ops. -/
theorem thread_exit_free_spec (excl : Bool) (cs : Nat) (pool : List Int)
    (t : JavaThread) (gp : Option (List Int)) :
    (0 < cs → jvmci_counters_include excl t = true →
        (thread_exit_free excl cs pool t).1.length = cs ∧
        (∀ i, i < cs → (thread_exit_free excl cs pool t).1.getD i 0 =
            pool.getD i 0 + (t.jvmci_counters.getD []).getD i 0) ∧
        (thread_exit_free excl cs pool t).2.jvmci_counters = none) ∧
    (0 < cs → jvmci_counters_include excl t = false →
        (thread_exit_free excl cs pool t).1 = pool ∧
        (thread_exit_free excl cs pool t).2.jvmci_counters = none) ∧
    (cs = 0 → thread_exit_free excl cs pool t = (pool, t) ∧
        free_counters_global cs gp = gp) := by
  refine ⟨?_, ?_, ?_⟩
  · intro hcs hinc
    unfold thread_exit_free accumulate_counters free_counters_thread
    rw [if_pos hcs, if_pos hinc, if_pos hcs]
    exact ⟨addCounters_length _ _ _, fun i hi => addCounters_getD _ _ _ i hi, rfl⟩
  · intro hcs hinc
    unfold thread_exit_free accumulate_counters free_counters_thread
    rw [if_pos hcs, if_neg (by simp [hinc]), if_pos hcs]
    exact ⟨rfl, rfl⟩
  · intro hcs
    subst hcs
    simp [thread_exit_free, accumulate_counters, free_counters_thread,
      free_counters_global]

/-- Witness for C2 (amended): an included thread with block `[3]`
exiting over pool `[2]` folds to 5 and has its block released. -/
theorem thread_exit_free_spec_witness :
    (thread_exit_free false 1 [2] ⟨false, some [3]⟩).1.getD 0 0 = 5 ∧
    (thread_exit_free false 1 [2] ⟨false, some [3]⟩).2.jvmci_counters = none := by
  have h := thread_exit_free_spec false 1 [2] ⟨false, some [3]⟩ none
  obtain ⟨_, h2, h3⟩ := h.1 (by decide) (by decide)
  exact ⟨(h2 0 (by decide)).trans (by decide), h3⟩

/-! ## C3: wrong-length collect is fatal -/

/-- C3: every call to `collect_counters` with a length different from
the configured counter count fails on the (spec-modelled) fatal
length-check, reporting the mismatching lengths; it is never silently
ignored. -/
theorem collect_counters_wrong_length_fatal (excl : Bool) (s : CountersState)
    (len : Nat) (h : len ≠ s.counterSize) :
    collect_counters excl s len = .error (.wrongLength len s.counterSize) := by
  unfold collect_counters
  rw [if_pos h]

/-- Witness for C3: length 2 against configured count 1 fails. -/
theorem collect_counters_wrong_length_fatal_witness :
    collect_counters false ⟨some [0], [], 1⟩ 2 = .error (.wrongLength 2 1) :=
  collect_counters_wrong_length_fatal false ⟨some [0], [], 1⟩ 2 (by decide)

/-! ## C7: collect sums pool plus included live threads -/

/-- With the correct length, `collect_counters` succeeds and returns the
accumulation fold over the live-thread snapshot. -/
theorem collect_counters_ok (excl : Bool) (s : CountersState) (len : Nat)
    (hlen : len = s.counterSize) :
    collect_counters excl s len = .ok (s.threads.foldl
      (fun acc t => if jvmci_counters_include excl t then
          addCounters len acc (t.jvmci_counters.getD []) else acc)
      ((List.range len).map (fun i => (s.old_thread_counters.getD []).getD i 0))) := by
  unfold collect_counters
  rw [if_neg (by simp [hlen])]

/-- The accumulation fold of `collect_counters` preserves the array
length. -/
theorem foldl_collect_length (excl : Bool) (len : Nat) :
    ∀ (threads : List JavaThread) (acc : List Int), acc.length = len →
      (threads.foldl (fun acc t => if jvmci_counters_include excl t then
          addCounters len acc (t.jvmci_counters.getD []) else acc) acc).length = len := by
  intro threads
  induction threads with
  | nil => intro acc h; simpa using h
  | cons hd tl ih =>
    intro acc h
    simp only [List.foldl_cons]
    by_cases hinc : jvmci_counters_include excl hd = true
    · rw [if_pos hinc]
      exact ih _ (addCounters_length _ _ _)
    · rw [if_neg hinc]
      exact ih _ h

/-- Each slot of the accumulation fold of `collect_counters` is the
starting value plus the sum of that slot over the threads passing the
inclusion policy. -/
theorem foldl_collect_getD (excl : Bool) (len i : Nat) (hi : i < len) :
    ∀ (threads : List JavaThread) (acc : List Int),
      (threads.foldl (fun acc t => if jvmci_counters_include excl t then
          addCounters len acc (t.jvmci_counters.getD []) else acc) acc).getD i 0 =
      acc.getD i 0 +
      ((threads.filter (fun t => jvmci_counters_include excl t)).map
          (fun t => (t.jvmci_counters.getD []).getD i 0)).sum := by
  intro threads
  induction threads with
  | nil => intro acc; simp
  | cons hd tl ih =>
    intro acc
    simp only [List.foldl_cons]
    by_cases hinc : jvmci_counters_include excl hd = true
    · rw [if_pos hinc, List.filter_cons_of_pos hinc, ih,
        addCounters_getD _ _ _ i hi, List.map_cons, List.sum_cons]
      ring
    · rw [if_neg hinc, List.filter_cons_of_neg hinc, ih]

/-- C7: with the correct length, `collect_counters` stores at each index
the retired-pool value plus the sum over every live thread admitted by
the exclusion policy of that thread's counter at that index, and the
result does not depend on the order of the live-thread snapshot. -/
theorem collect_counters_sum_spec (excl : Bool) (s : CountersState) (len : Nat)
    (hlen : len = s.counterSize) :
    ∃ out, collect_counters excl s len = .ok out ∧ out.length = len ∧
      (∀ i, i < len → out.getD i 0 =
          (s.old_thread_counters.getD []).getD i 0 +
          ((s.threads.filter (fun t => jvmci_counters_include excl t)).map
              (fun t => (t.jvmci_counters.getD []).getD i 0)).sum) ∧
      (∀ ts2, s.threads.Perm ts2 →
          collect_counters excl s len =
          collect_counters excl { s with threads := ts2 } len) := by
  refine ⟨_, collect_counters_ok excl s len hlen, ?_, ?_, ?_⟩
  · exact foldl_collect_length excl len s.threads _ (by simp)
  · intro i hi
    rw [foldl_collect_getD excl len i hi, getD_map_range _ _ _ hi]
  · intro ts2 hperm
    rw [collect_counters_ok excl s len hlen,
      collect_counters_ok excl { s with threads := ts2 } len hlen]
    congr 1
    apply List.ext_getElem
    · rw [foldl_collect_length excl len s.threads _ (by simp),
        foldl_collect_length excl len ts2 _ (by simp)]
    · intro i h1 h2
      have hi : i < len := by
        rwa [foldl_collect_length excl len s.threads _ (by simp)] at h1
      rw [← List.getD_eq_getElem _ 0 h1, ← List.getD_eq_getElem _ 0 h2,
        foldl_collect_getD excl len i hi, foldl_collect_getD excl len i hi]
      congr 1
      exact ((hperm.filter _).map _).sum_eq

/-- Witness for C7 at the spec's scenario: counter count 4, three live
threads each holding `[2,0,0,0]`, empty retired pool: collect returns
6 at index 0 and 0 at index 1. -/
theorem collect_counters_sum_spec_witness :
    ∃ out, collect_counters false
        ⟨some [0, 0, 0, 0],
         [⟨false, some [2, 0, 0, 0]⟩, ⟨false, some [2, 0, 0, 0]⟩,
          ⟨false, some [2, 0, 0, 0]⟩], 4⟩ 4 = .ok out ∧
      out.getD 0 0 = 6 ∧ out.getD 1 0 = 0 := by
  obtain ⟨out, h1, _, h3, _⟩ := collect_counters_sum_spec false
    ⟨some [0, 0, 0, 0],
     [⟨false, some [2, 0, 0, 0]⟩, ⟨false, some [2, 0, 0, 0]⟩,
      ⟨false, some [2, 0, 0, 0]⟩], 4⟩ 4 rfl
  exact ⟨out, h1, (h3 0 (by decide)).trans (by decide),
    (h3 1 (by decide)).trans (by decide)⟩

/-! ## C4: library caching and at-most-once load -/

/-- Fast path of `get_shared_library`: a cached handle, or `load` false,
returns the cached handle and path unchanged, with no load attempt. -/
theorem get_shared_library_fast (lp : Option String) (dd : String)
    (locate : String → Option String) (dll : String → Except String Nat)
    (s : LibState) (load : Bool)
    (h : s.shared_library_handle.isSome = true ∨ load = false) :
    get_shared_library lp dd locate dll s load =
      .ok ⟨s, s.shared_library_handle, s.shared_library_path, false⟩ := by
  unfold get_shared_library
  rcases h with h | h
  · rw [if_pos (by simp [h])]
  · subst h
    rw [if_pos (by simp)]

/-- Shape of a non-fatal `get_shared_library` call: either it did not
load (and left the cached state untouched), or it ran the load on an
empty cache and cached the loaded handle and resolved path, which it
also returned. -/
theorem get_shared_library_ok_cases (lp : Option String) (dd : String)
    (locate : String → Option String) (dll : String → Except String Nat)
    (s : LibState) (load : Bool) (r : LibResult)
    (hok : get_shared_library lp dd locate dll s load = .ok r) :
    (r.didLoad = false ∧ r.state = s) ∨
    (r.didLoad = true ∧ s.shared_library_handle = none ∧
     r.state.shared_library_handle.isSome = true ∧
     r.state.shared_library_handle = r.handle ∧
     r.state.shared_library_path = r.path ∧
     r.handle.isSome = true ∧ r.path.isSome = true) := by
  unfold get_shared_library at hok
  by_cases hc : (s.shared_library_handle.isSome || !load) = true
  · rw [if_pos hc] at hok
    cases hok
    exact Or.inl ⟨rfl, rfl⟩
  · rw [if_neg hc] at hok
    cases hh : s.shared_library_handle with
    | some x => exact absurd hc (by simp [hh])
    | none =>
      rw [hh] at hok
      dsimp only at hok
      cases hl : (match lp with
        | some op =>
          match locate op with
          | some p => Except.ok p
          | none => Except.error (FatalMsg.locateOverrideFailed op)
        | none =>
          match locate dd with
          | some p => Except.ok p
          | none => Except.error FatalMsg.locateDefaultFailed) with
      | error e => rw [hl] at hok; simp at hok
      | ok p =>
        rw [hl] at hok
        dsimp only at hok
        cases hdl : dll p with
        | error e => rw [hdl] at hok; simp at hok
        | ok hd2 =>
          rw [hdl] at hok
          dsimp only at hok
          cases hok
          exact Or.inr ⟨rfl, rfl, by simp, rfl, rfl, by simp, by simp⟩

/-- Across any sequence of `get_shared_library` calls, the load routine
runs at most once, and never when a handle is already cached. -/
theorem runGetLibrary_load_count (lp : Option String) (dd : String)
    (locate : String → Option String) (dll : String → Except String Nat) :
    ∀ (calls : List Bool) (s : LibState),
      (runGetLibrary lp dd locate dll s calls).2 ≤
        (if s.shared_library_handle.isSome then 0 else 1) := by
  intro calls
  induction calls with
  | nil =>
    intro s
    simp [runGetLibrary]
  | cons b rest ih =>
    intro s
    cases hok : get_shared_library lp dd locate dll s b with
    | error e =>
      simp only [runGetLibrary, hok]
      exact Nat.zero_le _
    | ok r =>
      simp only [runGetLibrary, hok]
      rcases get_shared_library_ok_cases lp dd locate dll s b r hok with
        ⟨hdl, hstate⟩ | ⟨hdl, hnone, hsome, _, _, _, _⟩
      · rw [hdl, hstate]
        simpa using ih s
      · have h2 := ih r.state
        rw [if_pos hsome] at h2
        have hgoal : (if s.shared_library_handle.isSome = true then (0 : Nat) else 1) = 1 := by
          simp [hnone]
        rw [hgoal, if_pos hdl]
        omega

/-- C4: `get_shared_library` is caching and at-most-once: with a cached
handle or `load = false` it returns the cached handle (possibly null)
and path with no load attempt; a call that did run the load found an
empty cache and cached the non-null handle and resolved path it
returned; and over any sequence of calls the load routine runs at most
once (never when a handle is already cached). -/
theorem get_shared_library_at_most_once (lp : Option String) (dd : String)
    (locate : String → Option String) (dll : String → Except String Nat)
    (s : LibState) (load : Bool) (calls : List Bool) :
    (s.shared_library_handle.isSome = true ∨ load = false →
        get_shared_library lp dd locate dll s load =
          .ok ⟨s, s.shared_library_handle, s.shared_library_path, false⟩) ∧
    (∀ r, get_shared_library lp dd locate dll s load = .ok r →
        r.didLoad = true →
        s.shared_library_handle = none ∧
        r.state.shared_library_handle = r.handle ∧ r.handle.isSome = true ∧
        r.state.shared_library_path = r.path ∧ r.path.isSome = true) ∧
    ((runGetLibrary lp dd locate dll s calls).2 ≤
        if s.shared_library_handle.isSome then 0 else 1) := by
  refine ⟨get_shared_library_fast lp dd locate dll s load, ?_,
    runGetLibrary_load_count lp dd locate dll calls s⟩
  intro r hok hld
  rcases get_shared_library_ok_cases lp dd locate dll s load r hok with
    ⟨hdl, _⟩ | ⟨_, hnone, _, h3, h4, h5, h6⟩
  · rw [hld] at hdl
    exact absurd hdl (by decide)
  · exact ⟨hnone, h3, h5, h4, h6⟩

/-- Witness for C4: with a cached handle 7 at path `p`, a loading call
returns the cached pair unchanged with no load attempt. -/
theorem get_shared_library_at_most_once_witness :
    get_shared_library none "dir" (fun _ => none) (fun _ => .error "no")
      ⟨some 7, some "p"⟩ true =
      .ok ⟨⟨some 7, some "p"⟩, some 7, some "p", false⟩ :=
  (get_shared_library_at_most_once none "dir" (fun _ => none)
    (fun _ => .error "no") ⟨some 7, some "p"⟩ true []).1 (Or.inl rfl)

/-! ## C5: fatal diagnostics of the loader slow path -/

/-- C5 counterexample: with no configured override, a failure to resolve
the library path in the default runtime-library directory terminates
with the diagnostic `Unable to create path to JVMCI shared library`,
which names neither the attempted path nor any OS error text. -/
theorem get_shared_library_default_locate_diag_cex :
    get_shared_library none "d" (fun _ => none) (fun _ => .error "e")
      ⟨none, none⟩ true = .error .locateDefaultFailed ∧
    FatalMsg.namedPath .locateDefaultFailed = none ∧
    FatalMsg.namedOsError .locateDefaultFailed = none :=
  ⟨rfl, rfl, rfl⟩

/-- C5 (amended): on the slow path, failure of path resolution or of the
library load terminates fatally with no recoverable return; the
load-failure diagnostic names the attempted path and the underlying OS
error text, a resolution failure with a configured override names that
override path but no OS error text, and a resolution failure in the
default directory names neither. -/
theorem get_shared_library_fatal_spec (lp : Option String) (dd : String)
    (locate : String → Option String) (dll : String → Except String Nat)
    (s : LibState) (hs : s.shared_library_handle = none) :
    (∀ op, lp = some op → locate op = none →
        get_shared_library lp dd locate dll s true =
          .error (.locateOverrideFailed op) ∧
        (FatalMsg.locateOverrideFailed op).namedPath = some op ∧
        (FatalMsg.locateOverrideFailed op).namedOsError = none) ∧
    (lp = none → locate dd = none →
        get_shared_library lp dd locate dll s true =
          .error .locateDefaultFailed) ∧
    (∀ op p e, lp = some op → locate op = some p → dll p = .error e →
        get_shared_library lp dd locate dll s true = .error (.loadFailed p e) ∧
        (FatalMsg.loadFailed p e).namedPath = some p ∧
        (FatalMsg.loadFailed p e).namedOsError = some e) ∧
    (∀ p e, lp = none → locate dd = some p → dll p = .error e →
        get_shared_library lp dd locate dll s true =
          .error (.loadFailed p e)) := by
  refine ⟨?_, ?_, ?_, ?_⟩
  · intro op hlp hloc
    subst hlp
    exact ⟨by simp [get_shared_library, hs, hloc], rfl, rfl⟩
  · intro hlp hloc
    subst hlp
    simp [get_shared_library, hs, hloc]
  · intro op p e hlp hloc hdl
    subst hlp
    exact ⟨by simp [get_shared_library, hs, hloc, hdl], rfl, rfl⟩
  · intro p e hlp hloc hdl
    subst hlp
    simp [get_shared_library, hs, hloc, hdl]

/-- Witness for C5 (amended): override `o` resolves to `P`, the load
fails with OS error `E`, and the fatal diagnostic names both. -/
theorem get_shared_library_fatal_spec_witness :
    get_shared_library (some "o") "d" (fun _ => some "P")
      (fun _ => .error "E") ⟨none, none⟩ true =
      .error (.loadFailed "P" "E") := by
  have h := get_shared_library_fatal_spec (some "o") "d" (fun _ => some "P")
    (fun _ => .error "E") ⟨none, none⟩ rfl
  exact (h.2.2.1 "o" "P" "E" rfl rfl rfl).1

/-! ## C8: thread tagging of log and trace sinks -/

/-- C8 counterexample: with logging enabled at verbosity 1, a level-1
call whose thread is unresolvable passes the level check yet records no
structured log entry at all (there is no placeholder in `vlog`), while
the console trace does use the `?` placeholder. -/
theorem vlog_unresolvable_thread_cex :
    (true && decide ((1 : Nat) ≤ 1)) = true ∧
    vlog true 1 1 none "m" = none ∧
    vtrace 1 1 none "m" = some ⟨1, "?", "m"⟩ :=
  ⟨rfl, rfl, rfl⟩

/-- C8 (amended): for a call passing the level checks, the console trace
line is always produced and is tagged with the thread's identity or the
`?` placeholder; the structured log entry is produced and tagged with
the thread's identity only when the thread is resolvable — with an
unresolvable thread no structured entry is recorded. -/
theorem vlog_vtrace_tagging_spec (logEvents : Bool) (ell tl level : Nat)
    (thread : Option String) (msg : String) :
    (∀ t, thread = some t → logEvents = true → level ≤ ell →
        vlog logEvents ell level thread msg = some ⟨level ≠ 1, t, msg⟩) ∧
    (thread = none → vlog logEvents ell level thread msg = none) ∧
    (level ≤ tl →
        vtrace tl level thread msg = some ⟨level, thread.getD "?", msg⟩) ∧
    (tl < level → vtrace tl level thread msg = none) := by
  refine ⟨?_, ?_, ?_, ?_⟩
  · intro t ht hlog hle
    subst ht
    subst hlog
    unfold vlog
    rw [if_pos (by simp [hle])]
  · intro ht
    subst ht
    unfold vlog
    split
    · rfl
    · rfl
  · intro hle
    unfold vtrace
    rw [if_pos (decide_eq_true hle)]
    cases thread with
    | some t => rfl
    | none => rfl
  · intro hlt
    unfold vtrace
    rw [if_neg (by simp; omega)]

/-- Witness for C8 (amended): a resolvable thread is tagged in the
structured entry; an unresolvable one gets the `?` placeholder trace. -/
theorem vlog_vtrace_tagging_spec_witness :
    vlog true 2 2 (some "T") "m" = some ⟨true, "T", "m"⟩ ∧
    vtrace 2 2 none "m" = some ⟨2, "?", "m"⟩ := by
  have h1 := vlog_vtrace_tagging_spec true 2 2 2 (some "T") "m"
  have h2 := vlog_vtrace_tagging_spec true 2 2 2 none "m"
  exact ⟨h1.1 "T" rfl rfl (by decide), h2.2.2.1 (by decide)⟩

/-! ## C9: crash-log target priority and fallback -/

/-- C9: from the unset election state, a `fatal_log` call completes (it
is never fatal) and the winner resolves the target in priority order:
stdout under `ErrorFileToStdout`, else stderr under `ErrorFileToStderr`,
else the dedicated crash-log file whose name is recorded; if file
creation fails the target falls back to stdout and the failure reason is
reported once to the console; the resolved descriptor is published. -/
theorem fatal_log_election_spec (o e : Bool) (prep : Option (Int × String))
    (err : String) (tid : Int) :
    ∃ out, fatal_log o e prep err tid ⟨none, none, none⟩ = some out ∧
      out.state.fd = some out.written_fd ∧
      (o = true → out.written_fd = 1 ∧ out.console_report = none) ∧
      (o = false → e = true → out.written_fd = 2 ∧ out.console_report = none) ∧
      (∀ fd name, o = false → e = false → prep = some (fd, name) →
          out.written_fd = fd ∧ out.state.filename = some name ∧
          out.console_report = none) ∧
      (o = false → e = false → prep = none →
          out.written_fd = 1 ∧ out.console_report = some err) := by
  cases o with
  | true =>
    refine ⟨⟨⟨some tid, some 1, none⟩, 1, none⟩, rfl, rfl, ?_, ?_, ?_, ?_⟩ <;> simp
  | false =>
    cases e with
    | true =>
      refine ⟨⟨⟨some tid, some 2, none⟩, 2, none⟩, rfl, rfl, ?_, ?_, ?_, ?_⟩ <;> simp
    | false =>
      cases prep with
      | none =>
        refine ⟨⟨⟨some tid, some 1, none⟩, 1, some err⟩, rfl, rfl, ?_, ?_, ?_, ?_⟩ <;> simp
      | some p =>
        obtain ⟨fd, name⟩ := p
        refine ⟨⟨⟨some tid, some fd, some name⟩, fd, none⟩, rfl, rfl, ?_, ?_, ?_, ?_⟩
        · simp
        · simp
        · intro fd2 name2 _ _ hp
          injection hp with hp
          injection hp with h1 h2
          subst h1
          subst h2
          exact ⟨rfl, rfl, rfl⟩
        · simp

/-- Witness for C9: with both flags clear and file creation failing, the
call falls back to stdout and reports the reason once. -/
theorem fatal_log_election_spec_witness :
    ∃ out, fatal_log false false none "E" 3 ⟨none, none, none⟩ = some out ∧
      out.written_fd = 1 ∧ out.console_report = some "E" := by
  obtain ⟨out, h1, _, _, _, _, h6⟩ := fatal_log_election_spec false false none "E" 3
  exact ⟨out, h1, h6 rfl rfl rfl⟩

/-! ## C10: box-cache initialization flag discipline -/

/-- A successful pass of the box-class loop visited the entire list, and
every class in it was resolved (and initialized when it was found
uninitialized). -/
theorem initBoxLoop_ok (R : String → Except String Nat) (N : Nat → Bool)
    (I : Nat → Except String Unit) :
    ∀ l : List String, (initBoxLoop R N I l).1 = .ok () →
      (initBoxLoop R N I l).2 = l ∧
      ∀ c ∈ l, ∃ k, R c = .ok k ∧ (N k = true → I k = .ok ()) := by
  intro l
  induction l with
  | nil =>
    intro _
    exact ⟨rfl, by simp⟩
  | cons c rest ih =>
    intro h
    cases hr : R c with
    | error e =>
      simp only [initBoxLoop, hr] at h
      exact absurd h (by simp)
    | ok k =>
      cases hstep : (if N k then I k else Except.ok ()) with
      | error e =>
        simp only [initBoxLoop, hr, hstep] at h
        exact absurd h (by simp)
      | ok u =>
        simp only [initBoxLoop, hr, hstep] at h ⊢
        obtain ⟨h1, h2⟩ := ih h
        refine ⟨by rw [h1], ?_⟩
        intro d hd
        rcases List.mem_cons.mp hd with h3 | hd
        · subst h3
          refine ⟨k, hr, fun hn => ?_⟩
          rw [if_pos hn] at hstep
          cases u
          exact hstep
        · exact h2 d hd

/-- The box-class loop always attempts the head class first. -/
theorem initBoxLoop_cons_head (R : String → Except String Nat) (N : Nat → Bool)
    (I : Nat → Except String Unit) (c : String) (rest : List String) :
    (initBoxLoop R N I (c :: rest)).2.head? = some c := by
  cases hr : R c with
  | error e => simp [initBoxLoop, hr]
  | ok k =>
    cases hstep : (if N k then I k else Except.ok ()) with
    | error e => simp [initBoxLoop, hr, hstep]
    | ok u => simp [initBoxLoop, hr, hstep]

/-- C10: with the flag already set the call is a no-op touching no
class; on a first call, success sets the flag and happens only after all
six box classes were resolved (and initialized where needed), while an
exception leaves the flag false and propagates, and the attempt had
started from the first class of the list — so a subsequent call (flag
still false) re-attempts the entire list rather than being a no-op. -/
theorem ensure_box_caches_spec (R : String → Except String Nat) (N : Nat → Bool)
    (I : Nat → Except String Unit) :
    (ensure_box_caches_initialized R N I true = (true, .ok (), [])) ∧
    (∀ flag res tr, ensure_box_caches_initialized R N I false = (flag, res, tr) →
        (res = .ok () → flag = true ∧ tr = box_classes ∧
            ∀ c ∈ box_classes, ∃ k, R c = .ok k ∧ (N k = true → I k = .ok ())) ∧
        (∀ e, res = .error e → flag = false ∧
            tr.head? = some "java/lang/Boolean")) := by
  constructor
  · rfl
  · intro flag res tr h
    rw [show ensure_box_caches_initialized R N I false =
        (match initBoxLoop R N I box_classes with
         | (.ok _, tr) => (true, Except.ok (), tr)
         | (.error e, tr) => (false, Except.error e, tr)) from by
      unfold ensure_box_caches_initialized
      rw [if_neg (by simp)]] at h
    cases hl : initBoxLoop R N I box_classes with
    | mk res0 tr0 =>
      rw [hl] at h
      cases res0 with
      | ok u =>
        cases u
        dsimp only at h
        injection h with h1 h2
        injection h2 with h2 h3
        subst h1
        subst h2
        subst h3
        constructor
        · intro _
          have hok := initBoxLoop_ok R N I box_classes (by rw [hl])
          rw [hl] at hok
          exact ⟨rfl, hok.1, hok.2⟩
        · intro e he
          exact absurd he (by simp)
      | error e0 =>
        dsimp only at h
        injection h with h1 h2
        injection h2 with h2 h3
        subst h1
        subst h2
        subst h3
        constructor
        · intro hok
          exact absurd hok (by simp)
        · intro e _
          refine ⟨rfl, ?_⟩
          have := initBoxLoop_cons_head R N I "java/lang/Boolean"
            ["java/lang/Byte$ByteCache", "java/lang/Short$ShortCache",
             "java/lang/Character$CharacterCache", "java/lang/Integer$IntegerCache",
             "java/lang/Long$LongCache"]
          rw [show ("java/lang/Boolean" ::
              ["java/lang/Byte$ByteCache", "java/lang/Short$ShortCache",
               "java/lang/Character$CharacterCache", "java/lang/Integer$IntegerCache",
               "java/lang/Long$LongCache"]) = box_classes from rfl, hl] at this
          exact this

/-- Witness for C10: with every class resolving to an
already-initialized klass, the first call sets the flag and visits all
six classes. -/
theorem ensure_box_caches_spec_witness :
    ensure_box_caches_initialized (fun _ => .ok 0) (fun _ => false)
      (fun _ => .ok ()) false = (true, .ok (), box_classes) ∧
    ensure_box_caches_initialized (fun _ => .ok 0) (fun _ => false)
      (fun _ => .ok ()) true = (true, .ok (), []) := by
  have h := ensure_box_caches_spec (fun _ => .ok 0) (fun _ => false) (fun _ => .ok ())
  have h2 := (h.2 (ensure_box_caches_initialized (fun _ => .ok 0) (fun _ => false)
      (fun _ => .ok ()) false).1
    (ensure_box_caches_initialized (fun _ => .ok 0) (fun _ => false)
      (fun _ => .ok ()) false).2.1
    (ensure_box_caches_initialized (fun _ => .ok 0) (fun _ => false)
      (fun _ => .ok ()) false).2.2 rfl).1 (by rfl)
  refine ⟨?_, h.1⟩
  have h3 : (ensure_box_caches_initialized (fun _ => .ok 0) (fun _ => false)
      (fun _ => .ok ()) false).1 = true := h2.1
  have h4 : (ensure_box_caches_initialized (fun _ => .ok 0) (fun _ => false)
      (fun _ => .ok ()) false).2.2 = box_classes := h2.2.1
  have h5 : (ensure_box_caches_initialized (fun _ => .ok 0) (fun _ => false)
      (fun _ => .ok ()) false).2.1 = .ok () := by rfl
  calc ensure_box_caches_initialized (fun _ => .ok 0) (fun _ => false)
        (fun _ => .ok ()) false
      = ((ensure_box_caches_initialized (fun _ => .ok 0) (fun _ => false)
          (fun _ => .ok ()) false).1,
         (ensure_box_caches_initialized (fun _ => .ok 0) (fun _ => false)
          (fun _ => .ok ()) false).2.1,
         (ensure_box_caches_initialized (fun _ => .ok 0) (fun _ => false)
          (fun _ => .ok ()) false).2.2) := rfl
    _ = (true, .ok (), box_classes) := by rw [h3, h4, h5]

end JVMCI
